import Mathlib

/-!
Verification development for the dirigo-asi-stage repository: a driver for
the ASI MS2000 three-axis stage controller (`src/tests/MS2000.py`, the
standalone low-level driver) and the Dirigo stage facade built on it
(`src/dirigo_asi_stage/dirigo_asi_stage.py`).

Modelling conventions:
* Numeric quantities (positions in tenths of micrometers, engineering
  positions in millimeters, speeds in mm/s) are rational numbers `ℚ`,
  standing for the Python floats with exact arithmetic.
* A serial exchange is modelled by its parsed pieces: a query's reply is
  given as input data (a string, or the numeric tail `responses[1:]` of a
  split reply), and the command a function transmits is part of its result,
  so that "what was sent" is observable in theorems.
* Python exceptions become `Except Err`; the `Err` constructors follow the
  spec's error taxonomy (InvalidArgument, DeviceBusy, DeviceNotFound,
  OutOfRange, MoveTimeout), plus `noReply` for an exhausted reply stream.
* Python truthiness of an optional float (`if not (lower or upper)`) is
  `truthy`: `None` and `0` are falsy, everything else truthy.
-/

/-- Error taxonomy used across the driver and the facade (spec §7). -/
inductive Err where
  | invalidArgument
  | deviceBusy
  | deviceNotFound
  | outOfRange (lo hi : ℚ)
  | moveTimeout
  | noReply
deriving DecidableEq

/-- `matchesAt pat s`: does `pat` occur at the very start of `s`?
Helper for Python's substring test `pat in s`. -/
def matchesAt : List Char → List Char → Bool
  | [], _ => true
  | _ :: _, [] => false
  | p :: ps, c :: cs => p == c && matchesAt ps cs

/-- `containsChars pat s`: does `pat` occur contiguously anywhere in `s`? -/
def containsChars (pat : List Char) : List Char → Bool
  | [] => matchesAt pat []
  | c :: cs => matchesAt pat (c :: cs) || containsChars pat cs

/-- Python's substring containment `pat in s`, on `String`. -/
def containsStr (s pat : String) : Bool := containsChars pat.data s.data

/-- Python's `str.strip()`: drop leading and trailing whitespace. -/
def stripChars (l : List Char) : List Char :=
  ((l.dropWhile (·.isWhitespace)).reverse.dropWhile (·.isWhitespace)).reverse

/-- Python's `str.strip()` on `String`. -/
def pyStrip (s : String) : String := ⟨stripChars s.data⟩

/-- Round a rational to the nearest integer, ties to even: the rounding
mode of Python's built-in `round` (here applied to the exact rational
value rather than the binary-float approximation). -/
def roundHalfEven (q : ℚ) : ℤ :=
  if q - ⌊q⌋ < 1/2 then ⌊q⌋
  else if q - ⌊q⌋ > 1/2 then ⌊q⌋ + 1
  else if ⌊q⌋ % 2 = 0 then ⌊q⌋ else ⌊q⌋ + 1

/-- Python `round(q, 3)`: round to 3 decimal places (half to even). -/
def round3 (q : ℚ) : ℚ := (roundHalfEven (q * 1000) : ℚ) / 1000

/-- Python truthiness of an optional numeric value: `None` and `0` are
falsy, all other numbers truthy.  Embeds the `if not (lower or upper)`
and `if not (x or y or z)` idioms of `src/tests/MS2000.py`. -/
def truthy : Option ℚ → Bool
  | none => false
  | some q => q != 0

/-- `MS2000.__init__` probe loop (src/tests/MS2000.py lines 19-36), for the
case `resourceName is None`.  Each available serial resource is a pair of
its name and `some reply` (its answer to the `WHO` identity query) or
`none` (opening/configuring/querying it raised, caught by the bare
`except: continue`).  The loop selects the FIRST resource that answers at
all — the selection guard in the source is literally `if True:`, so the
reply's content is never inspected — and raises `DeviceNotFound`
(`RuntimeError` in the source) only when no resource answers. -/
def msProbe : List (String × Option String) → Except Err String
  | [] => .error .deviceNotFound
  | (_, none) :: rest => msProbe rest
  | (name, some _) :: _ => .ok name

/-- `MS2000.status` (src/tests/MS2000.py line 47-49): True (idle) iff the
stripped `STATUS` reply does not contain the substring `"B"`. -/
def msStatus (reply : String) : Bool := !(containsStr (pyStrip reply) "B")

/-- Number of requested axes. -/
def axCount (x y z : Bool) : ℕ :=
  (cond x 1 0) + (cond y 1 0) + (cond z 1 0)

/-- The `WHERE` instruction built by `MS2000.position`
(src/tests/MS2000.py lines 103-106). -/
def whereInstr (x y z : Bool) : String :=
  "WHERE" ++ (cond x " X" "") ++ (cond y " Y" "") ++ (cond z " Z" "")

/-- `MS2000.position` (src/tests/MS2000.py lines 98-114), with the query
instructions it transmits made observable.  `replies` is the stream of
parsed replies, each the numeric tail `responses[1:]` of one `WHERE`
exchange; every query consumes one.  On a count mismatch the source does
`return self.position()` — re-querying with the DEFAULT arguments
`x=True, y=True, z=True`, whatever subset was originally requested — and
repeats this until a reply's count matches (the model bounds this by the
reply stream; `noReply` stands for the exchange that never completes).
The no-axis guard, checked first in the source, is duplicated into both
list branches here to keep the recursion structural. -/
def msPositionTrace : Bool → Bool → Bool → List (List ℚ) →
    Except Err (List ℚ) × List String
  | x, y, z, [] =>
    if ¬(x || y || z) then (.error .invalidArgument, [])
    else (.error .noReply, [whereInstr x y z])
  | x, y, z, coords :: rest =>
    if ¬(x || y || z) then (.error .invalidArgument, [])
    else if coords.length = axCount x y z then (.ok coords, [whereInstr x y z])
    else
      let p := msPositionTrace true true true rest
      (p.1, whereInstr x y z :: p.2)

/-- A transmitted motion/speed command: verb plus `AXIS=value` pairs in
X, Y, Z order, with the numeric value exactly as formatted into the
instruction string. -/
structure MoveCmd where
  verb : String
  args : List (String × ℚ)
deriving DecidableEq

/-- The `AXIS=value` pairs of a `MOVE`/`MOVREL` instruction: each supplied
coordinate is rounded to 3 decimals (`round(coord, 3)`,
src/tests/MS2000.py line 133). -/
def moveArgs (x y z : Option ℚ) : List (String × ℚ) :=
  (match x with | some c => [("X", round3 c)] | none => []) ++
  (match y with | some c => [("Y", round3 c)] | none => []) ++
  (match z with | some c => [("Z", round3 c)] | none => [])

/-- `MS2000.move` (src/tests/MS2000.py lines 117-136): `ValueError` when
all coordinates are `None` (checked with `is not None`, so `0` counts as
supplied); then the instruction is built with 3-decimal rounding; then a
status pre-check rejects with `DeviceBusy` (`RuntimeError` in the source)
when the controller is already moving; only then is the command sent.
`busy` is the result of that status pre-check. -/
def msMove (x y z : Option ℚ) (relative busy : Bool) : Except Err MoveCmd :=
  if x = none ∧ y = none ∧ z = none then .error .invalidArgument
  else if busy then .error .deviceBusy
  else .ok ⟨cond relative "MOVREL" "MOVE", moveArgs x y z⟩

/-- The `AXIS=value` pairs of a `SPEED` set instruction: each supplied
value is formatted RAW (`f"{axis}={coord}"`, src/tests/MS2000.py line
168) — no rounding, unlike `move`. -/
def speedArgs (x y z : Option ℚ) : List (String × ℚ) :=
  (match x with | some c => [("X", c)] | none => []) ++
  (match y with | some c => [("Y", c)] | none => []) ++
  (match z with | some c => [("Z", c)] | none => [])

/-- `MS2000.speed` (src/tests/MS2000.py lines 153-173): the no-axis guard
is `if not (x or y or z)` — Python truthiness, so a lone `0` value counts
as missing; then the same busy pre-check as `move`; the values are
transmitted unrounded. -/
def msSpeed (x y z : Option ℚ) (busy : Bool) : Except Err MoveCmd :=
  if ¬(truthy x || truthy y || truthy z) then .error .invalidArgument
  else if busy then .error .deviceBusy
  else .ok ⟨"SPEED", speedArgs x y z⟩

/-- `MS2000.setLimit` (src/tests/MS2000.py lines 72-87): axis must be X,
Y or Z; the bounds guard is `if not (lower or upper)` — Python
truthiness, so `lower=0, upper=None` raises; then one command per
`is not None` bound, `SETLOW` for lower and `SETUP` for upper, values
formatted raw. -/
def msSetLimit (axis : String) (lower upper : Option ℚ) :
    Except Err (List (String × ℚ)) :=
  if ¬(axis = "X" ∨ axis = "Y" ∨ axis = "Z") then .error .invalidArgument
  else if ¬(truthy lower || truthy upper) then .error .invalidArgument
  else .ok
    ((match lower with | some l => [("SETLOW " ++ axis, l)] | none => []) ++
     (match upper with | some u => [("SETUP " ++ axis, u)] | none => []))

/-- Facade definitions follow: `ASILinearMotor` / `MS2000Stage`
(src/dirigo_asi_stage/dirigo_asi_stage.py).  The per-axis motor is
modelled for the x axis; the code is uniform in the axis, only the slot
of the driver call changes. -/
def asiFactor : ℚ := 10000000

/-- `ASILinearMotor.position` conversion (line 92):
`units.Position(pos_tenths_um/10e6)`.  The Python literal `10e6` is
`10 * 10^6 = 10^7`. -/
def asiPositionMM (nativeTenthsUm : ℚ) : ℚ := nativeTenthsUm / asiFactor

/-- `ASILinearMotor.move_to` conversion (line 114):
`round(position * 10e6, 3)` — engineering millimeters to the native value
put into the move command. -/
def asiMoveNative (positionMM : ℚ) : ℚ := round3 (positionMM * asiFactor)

/-- Modelled from the spec: `units.PositionRange.within_range` belongs to
the external dirigo framework (a dependency, not part of this
repository).  The spec reads "validates target lies within
`position_limits`", taken as the inclusive check min ≤ p ≤ max. -/
def withinRange (lo hi p : ℚ) : Bool := decide (lo ≤ p ∧ p ≤ hi)

/-- `ASILinearMotor.moving` (lines 130-135): the inversion of the
driver's `status()` polarity — True exactly when the stripped `STATUS`
reply contains `"B"`. -/
def asiMoving (statusReply : String) : Bool := !(msStatus statusReply)

/-- The polling loop of blocking `move_to`/`home` (lines 120-126 and
192-198): read `moving` once per iteration, return as soon as it reads
false.  The result counts the status polls performed; `none` models the
timeout guard firing (`moving` never read false within the configured
bound, here the end of the reply stream). -/
def blockingWait : List String → Option ℕ
  | [] => none
  | r :: rest =>
    if asiMoving r then (blockingWait rest).map (· + 1) else some 1

/-- `ASILinearMotor.move_to` (lines 98-126) for the x axis, composed with
the driver's `move`.  Returns the outcome (number of status polls on
success; the facade's `ValueError` is `outOfRange` carrying the min/max
it reports, and the blocking loop's `TimeoutError` is `moveTimeout`)
paired with the list of move commands actually transmitted.  Order in
the source: limits validation first, then unit conversion, then the
driver call (whose own busy pre-check may reject), then, if `blocking`,
the polling loop. -/
def asiMoveTo (lo hi target : ℚ) (blocking busy : Bool)
    (statusReplies : List String) : Except Err ℕ × List MoveCmd :=
  if withinRange lo hi target then
    match msMove (some (asiMoveNative target)) none none false busy with
    | .error e => (.error e, [])
    | .ok cmd =>
      if blocking then
        match blockingWait statusReplies with
        | some k => (.ok k, [cmd])
        | none => (.error .moveTimeout, [cmd])
      else (.ok 0, [cmd])
  else (.error (.outOfRange lo hi), [])

/-- `ASILinearMotor.move_velocity` (lines 137-157) for the x axis:
`isVelocity` is the `isinstance(velocity, units.Velocity)` type check
(its failure is the facade's `ValueError`); the direction is
`1 if velocity > 0 else -1`, so 0 maps to -1; the issued command is a
relative driver move of `direction * 10000000` native units. -/
def asiMoveVelocity (isVelocity : Bool) (v : ℚ) (busy : Bool) :
    Except Err MoveCmd :=
  if ¬isVelocity then .error .invalidArgument
  else msMove (some ((if v > 0 then (1 : ℚ) else -1) * 10000000)) none none true busy

/-- `ASILinearMotor.stop` (lines 159-181) for the x axis: read the
current native position (`p1`) and issue an absolute driver move to it;
if that raises the busy `RuntimeError` (`b1`), wait, re-read the
position freshly (`p2`) and issue the move once more, this time
unguarded, so a second busy rejection (`b2`) propagates.  The result
carries the move commands actually transmitted (a busy-rejected driver
call transmits nothing: its pre-check fires before sending). -/
def asiStop (p1 p2 : ℚ) (b1 b2 : Bool) : Except Err (List MoveCmd) :=
  match msMove (some p1) none none false b1 with
  | .ok cmd => .ok [cmd]
  | .error .deviceBusy =>
    (match msMove (some p2) none none false b2 with
     | .ok cmd => .ok [cmd]
     | .error e => .error e)
  | .error e => .error e

/-- `ASILinearMotor.homed` (lines 200-211): no homed flag exists, so the
code reads `position` (native value converted by `asiPositionMM`) and
checks it is within 1 mm of zero. -/
def asiHomed (nativePos : ℚ) : Bool := decide (|asiPositionMM nativePos| < 1)

/-- One startup homing step of `MS2000Stage.__init__` (lines 300-306) for
one axis: if the axis does not read as homed, call
`ASILinearMotor.home(blocking=False)`, which delegates to
`MS2000.home()` = `move(x=0, y=0, z=0, relative=False)`
(src/tests/MS2000.py lines 90-92) — subject to the driver's busy
pre-check.  There is no `try`/`except` around these calls in the source:
any error escapes. -/
def homeStep (pos : ℚ) (busy : Bool) : Except Err (List MoveCmd) :=
  if asiHomed pos then .ok []
  else
    match msMove (some 0) (some 0) (some 0) false busy with
    | .ok cmd => .ok [cmd]
    | .error e => .error e

/-- The startup auto-homing sequence of `MS2000Stage.__init__` (lines
300-306): x, then y, then z, each conditionally homed; `b1`/`b2`/`b3`
are the busy pre-check results of the respective home moves.  Returns
the transmitted commands, or the first escaping error, which aborts
construction. -/
def stageInitHoming (xp yp zp : ℚ) (b1 b2 b3 : Bool) :
    Except Err (List MoveCmd) := do
  let cx ← homeStep xp b1
  let cy ← homeStep yp b2
  let cz ← homeStep zp b3
  return cx ++ cy ++ cz

/-- Every query of a full-axis-set `position` trace is the full `WHERE X Y Z`
instruction: once the retry path switches to the default arguments, it never
switches back. -/
theorem msPositionTrace_all_full (replies : List (List ℚ)) :
    ((msPositionTrace true true true replies).2).all
      (fun q => q == whereInstr true true true) = true := by
  induction replies with
  | nil => rfl
  | cons coords rest ih =>
    by_cases h : coords.length = axCount true true true
    · simp [msPositionTrace, h]
    · simp [msPositionTrace, h]
      simpa using ih

/-- C1: the spec claims a Native/Engineering conversion factor of 10000
tenths of micrometers per millimeter in both directions; the code divides
and multiplies by the Python literal `10e6`, i.e. `10^7`.  Evaluated at
the failing input: a native reading of 10000 (one millimeter) yields an
engineering position of 1/1000 mm rather than 1 mm, and a 1 mm target is
converted to 10000000 native increments rather than 10000.  The code
contradicts its own comments (`TENTHS_OF_MICRONS_PER_MM = 10000.0`,
"1 mm = 10000 tenths of microns", and `10000000  # 1000 mm`) and the
repository GUI's `x/10000` display conversion. -/
theorem unit_conversion_factor_bug :
    asiPositionMM 10000 = 1 / 1000
    ∧ asiPositionMM 10000 ≠ 1
    ∧ asiMoveNative 1 = 10000000
    ∧ asiMoveNative 1 ≠ 10000 := by
  norm_num [asiPositionMM, asiMoveNative, asiFactor, round3, roundHalfEven]

/-- C2: the spec claims auto-detection selects the first serial resource
whose identity reply contains "ASI-MS2000" and fails with DeviceNotFound
when none does.  Evaluated at the failing input: with a single resource
whose `WHO` reply is "FAKE-9000" (which does not contain "ASI-MS2000"),
the probe loop selects that resource — its guard is literally `if True:`,
so the reply is never inspected — instead of failing. -/
theorem probe_ignores_identity_reply :
    msProbe [("ASRL1::INSTR", some "FAKE-9000")] = .ok "ASRL1::INSTR"
    ∧ containsStr "FAKE-9000" "ASI-MS2000" = false :=
  ⟨rfl, by decide⟩

/-- C3 (counterexample): the claim says a count-mismatched `position` reply
triggers exactly one re-query of the same requested axis set.  With axes
`{x}` requested and reply stream `[[1,2],[4,5,6]]`, the transmitted
queries are `WHERE X` followed by `WHERE X Y Z` — the re-query uses a
DIFFERENT axis set; and with all axes requested and three undersized
replies, four queries (three re-queries) are transmitted. -/
theorem position_retry_counterexample :
    (msPositionTrace true false false [[1, 2], [4, 5, 6]]).2 =
      [whereInstr true false false, whereInstr true true true]
    ∧ whereInstr true true true ≠ whereInstr true false false
    ∧ ((msPositionTrace true true true [[0], [0], [0], [1, 2, 3]]).2).length = 4 :=
  ⟨rfl, by decide, rfl⟩

/-- C3 (amended): on a count mismatch, `position()` re-queries with the
DEFAULT full axis set (`x=True, y=True, z=True`), whatever subset was
originally requested, and repeats the re-query for every further mismatch
with no retry cap: every query after the first is `WHERE X Y Z`, and for
every `n` a stream of `n` undersized replies followed by a full one makes
the operation transmit `n + 1` queries and still succeed. -/
theorem position_requery_uses_default_axes :
    (∀ (x y z : Bool) (replies : List (List ℚ)),
      (((msPositionTrace x y z replies).2).tail).all
        (fun q => q == whereInstr true true true) = true)
    ∧ (∀ n : ℕ,
      msPositionTrace true true true (List.replicate n [0] ++ [[1, 2, 3]]) =
        (.ok [1, 2, 3], List.replicate (n + 1) (whereInstr true true true))) := by
  constructor
  · intro x y z replies
    cases replies with
    | nil => by_cases hb : (x || y || z) = true <;> simp [msPositionTrace, hb]
    | cons coords rest =>
      by_cases hb : (x || y || z) = true
      · by_cases h : coords.length = axCount x y z
        · simp [msPositionTrace, hb, h]
        · simp [msPositionTrace, hb, h]
          simpa using msPositionTrace_all_full rest
      · simp [msPositionTrace, hb]
  · intro n
    induction n with
    | zero => rfl
    | succ n ih =>
      rw [List.replicate_succ, List.cons_append]
      simp only [msPositionTrace, axCount]
      rw [ih]
      simp [List.replicate_succ]

/-- C4 (counterexample): the claim says every numeric value supplied to
`move` AND to `speed` is rounded to 3 decimal places before being
formatted into the transmitted command.  For `speed` this is false: the
call `speed(x=1.2346)` transmits the value 1.2346 unchanged, although its
3-decimal rounding would be 1.235. -/
theorem speed_value_not_rounded :
    msSpeed (some (12346 / 10000)) none none false =
      .ok ⟨"SPEED", [("X", 12346 / 10000)]⟩
    ∧ round3 (12346 / 10000) ≠ 12346 / 10000 := by
  constructor
  · norm_num [msSpeed, truthy, speedArgs]
  · norm_num [round3, roundHalfEven]

/-- C4 (amended): `move` rounds every supplied coordinate to 3 decimal
places before formatting it into the instruction; `speed` transmits every
supplied value exactly as given, unrounded. -/
theorem move_rounds_speed_transmits_raw (mx my mz sx sy sz : ℚ)
    (rel : Bool) (h : sx ≠ 0) :
    msMove (some mx) (some my) (some mz) rel false =
      .ok ⟨cond rel "MOVREL" "MOVE",
           [("X", round3 mx), ("Y", round3 my), ("Z", round3 mz)]⟩
    ∧ msSpeed (some sx) (some sy) (some sz) false =
      .ok ⟨"SPEED", [("X", sx), ("Y", sy), ("Z", sz)]⟩ := by
  constructor
  · simp [msMove, moveArgs]
  · simp [msSpeed, truthy, speedArgs, h]

/-- Witness for `move_rounds_speed_transmits_raw` at concrete inputs. -/
theorem move_rounds_speed_transmits_raw_witness :
    msMove (some 1) (some 2) (some 3) true false =
      .ok ⟨cond true "MOVREL" "MOVE",
           [("X", round3 1), ("Y", round3 2), ("Z", round3 3)]⟩
    ∧ msSpeed (some 4) (some 5) (some 6) false =
      .ok ⟨"SPEED", [("X", 4), ("Y", 5), ("Z", 6)]⟩ :=
  move_rounds_speed_transmits_raw 1 2 3 4 5 6 true (by norm_num)

/-- C5 (counterexample): the claim says `setLimit` raises for missing
bounds if and only if both bounds are null, and that a supplied numeric
`0` counts as present.  False: `setLimit("X", lower=0, upper=None)`
raises, because the guard `if not (lower or upper)` uses Python
truthiness and `0` is falsy. -/
theorem setLimit_zero_lower_raises :
    msSetLimit "X" (some 0) none = .error .invalidArgument := by
  simp [msSetLimit, truthy]

/-- C5 (amended): for a valid axis, `setLimit` raises exactly when both
bounds are falsy (null or the numeric value 0); otherwise it issues one
limit-set command per non-null bound (`SETLOW` for lower, `SETUP` for
upper) and does not raise. -/
theorem setLimit_truthiness (axis : String) (lower upper : Option ℚ)
    (hax : axis = "X" ∨ axis = "Y" ∨ axis = "Z") :
    ((∃ e, msSetLimit axis lower upper = .error e) ↔
      (truthy lower = false ∧ truthy upper = false))
    ∧ (∀ cmds, msSetLimit axis lower upper = .ok cmds →
        cmds.length = (cond lower.isSome 1 0) + (cond upper.isSome 1 0)) := by
  have hax' : ¬¬(axis = "X" ∨ axis = "Y" ∨ axis = "Z") := not_not_intro hax
  rcases lower with _ | l <;> rcases upper with _ | u
  · have hres : msSetLimit axis none none = .error .invalidArgument := by
      simp only [msSetLimit]
      rw [if_neg hax', if_pos (by simp [truthy])]
    rw [hres]
    exact ⟨by simp [truthy], fun cmds hc => by simp at hc⟩
  · by_cases hu : u = 0
    · subst hu
      have hres : msSetLimit axis none (some 0) = .error .invalidArgument := by
        simp only [msSetLimit]
        rw [if_neg hax', if_pos (by simp [truthy])]
      rw [hres]
      exact ⟨⟨fun _ => ⟨rfl, by simp [truthy]⟩, fun _ => ⟨.invalidArgument, rfl⟩⟩,
             fun cmds hc => by simp at hc⟩
    · have hres : msSetLimit axis none (some u) = .ok [("SETUP " ++ axis, u)] := by
        simp only [msSetLimit]
        rw [if_neg hax', if_neg (by simp [truthy, hu])]
        rfl
      rw [hres]
      constructor
      · constructor
        · rintro ⟨e, he⟩; simp at he
        · rintro ⟨-, h2⟩; simp [truthy, hu] at h2
      · intro cmds hc; cases hc; simp
  · by_cases hl : l = 0
    · subst hl
      have hres : msSetLimit axis (some 0) none = .error .invalidArgument := by
        simp only [msSetLimit]
        rw [if_neg hax', if_pos (by simp [truthy])]
      rw [hres]
      exact ⟨⟨fun _ => ⟨by simp [truthy], rfl⟩, fun _ => ⟨.invalidArgument, rfl⟩⟩,
             fun cmds hc => by simp at hc⟩
    · have hres : msSetLimit axis (some l) none = .ok [("SETLOW " ++ axis, l)] := by
        simp only [msSetLimit]
        rw [if_neg hax', if_neg (by simp [truthy, hl])]
        rfl
      rw [hres]
      constructor
      · constructor
        · rintro ⟨e, he⟩; simp at he
        · rintro ⟨h1, -⟩; simp [truthy, hl] at h1
      · intro cmds hc; cases hc; simp
  · by_cases hz : l = 0 ∧ u = 0
    · obtain ⟨hl, hu⟩ := hz
      subst hl; subst hu
      have hres : msSetLimit axis (some 0) (some 0) = .error .invalidArgument := by
        simp only [msSetLimit]
        rw [if_neg hax', if_pos (by simp [truthy])]
      rw [hres]
      exact ⟨⟨fun _ => ⟨by simp [truthy], by simp [truthy]⟩,
              fun _ => ⟨.invalidArgument, rfl⟩⟩,
             fun cmds hc => by simp at hc⟩
    · have htt : (truthy (some l) || truthy (some u)) = true := by
        rcases not_and_or.mp hz with h | h <;> simp [truthy, h]
      have hres : msSetLimit axis (some l) (some u) =
          .ok [("SETLOW " ++ axis, l), ("SETUP " ++ axis, u)] := by
        simp only [msSetLimit]
        rw [if_neg hax', if_neg (by simp [htt])]
        rfl
      rw [hres]
      constructor
      · constructor
        · rintro ⟨e, he⟩; simp at he
        · rintro ⟨h1, h2⟩
          rw [Bool.or_eq_true] at htt
          rcases htt with h | h
          · rw [h1] at h; cases h
          · rw [h2] at h; cases h
      · intro cmds hc; cases hc; simp

/-- Witness for `setLimit_truthiness` at a concrete input. -/
theorem setLimit_truthiness_witness :
    ((∃ e, msSetLimit "X" (some 5) none = .error e) ↔
      (truthy (some 5) = false ∧ truthy none = false))
    ∧ (∀ cmds, msSetLimit "X" (some 5) none = .ok cmds →
        cmds.length = (cond (some (5:ℚ)).isSome 1 0) + (cond (none : Option ℚ).isSome 1 0)) :=
  setLimit_truthiness "X" (some 5) none (Or.inl rfl)

/-- C6 (counterexample): the claim says errors raised by startup
auto-homing are never propagated out of the facade's construction.
False: with the x axis parked at native 20000000 (not within the homing
tolerance) and the controller busy when its home move is issued, the
driver's busy rejection escapes `MS2000Stage.__init__` — there is no
`try`/`except` (and no logging) around the startup homing calls — so
construction fails with `DeviceBusy`. -/
theorem init_homing_error_escapes :
    stageInitHoming 20000000 0 0 true false false = .error .deviceBusy := by
  have hx : asiHomed 20000000 = false := by
    simp only [asiHomed, asiPositionMM, asiFactor, decide_eq_false_iff_not, not_lt]
    norm_num
  simp [stageInitHoming, homeStep, hx, msMove, Bind.bind, Except.bind]

/-- C6 (amended): a `DeviceBusy` rejection of a startup auto-home move
propagates out of the Stage Facade's construction: whenever the first
axis is not already within the homing tolerance and the controller is
busy when its home move is issued, `MS2000Stage.__init__` fails with
`DeviceBusy` (nothing is caught or logged). -/
theorem init_homing_busy_propagates (xp yp zp : ℚ) (b2 b3 : Bool)
    (h : asiHomed xp = false) :
    stageInitHoming xp yp zp true b2 b3 = .error .deviceBusy := by
  simp [stageInitHoming, homeStep, h, msMove, Bind.bind, Except.bind]

/-- Witness for `init_homing_busy_propagates` at a concrete input. -/
theorem init_homing_busy_propagates_witness :
    stageInitHoming 20000000 0 0 true false false = .error .deviceBusy :=
  init_homing_busy_propagates 20000000 0 0 false false
    (by simp only [asiHomed, asiPositionMM, asiFactor,
          decide_eq_false_iff_not, not_lt]
        norm_num)

/-- C7: for every target outside the limit range, `move_to` fails with
`OutOfRange` carrying the active min and max, and no move command is
transmitted — for any blocking mode, any busy state and any status reply
stream, since the validation precedes all I/O. -/
theorem moveTo_out_of_range_no_transmit (lo hi t : ℚ) (blocking busy : Bool)
    (statusReplies : List String) (h : withinRange lo hi t = false) :
    asiMoveTo lo hi t blocking busy statusReplies =
      (.error (.outOfRange lo hi), []) := by
  simp [asiMoveTo, h]

/-- Witness for `moveTo_out_of_range_no_transmit`: the spec's own scenario,
limits [-5 mm, 5 mm] and target 10 mm. -/
theorem moveTo_out_of_range_no_transmit_witness :
    asiMoveTo (-5) 5 10 true false [] = (.error (.outOfRange (-5) 5), []) :=
  moveTo_out_of_range_no_transmit (-5) 5 10 true false []
    (by simp only [withinRange, decide_eq_false_iff_not, not_and, not_le]
        norm_num)

/-- A `STATUS` reply "B" reads as moving. -/
theorem asiMoving_B : asiMoving "B" = true := by decide

/-- A `STATUS` reply "N" reads as idle. -/
theorem asiMoving_N : asiMoving "N" = false := by decide

/-- The polling loop returns as soon as `moving` first reads false:
`n` busy readings followed by an idle one mean exactly `n + 1` polls,
whatever comes after. -/
theorem blockingWait_busy_then_idle (n : ℕ) (rest : List String) :
    blockingWait (List.replicate n "B" ++ "N" :: rest) = some (n + 1) := by
  induction n with
  | zero => simp [blockingWait, asiMoving_N]
  | succ n ih => simp [List.replicate_succ, blockingWait, asiMoving_B, ih]

/-- If `moving` never reads false within the bound, the loop times out. -/
theorem blockingWait_never_idle (n : ℕ) :
    blockingWait (List.replicate n "B") = none := by
  induction n with
  | zero => rfl
  | succ n ih => simp [List.replicate_succ, blockingWait, asiMoving_B, ih]

/-- C8: `stop()` retries its absolute move exactly once on a busy
rejection: a successful first attempt transmits one move at the first
position read and no retry happens; a rejected first attempt is retried
with the freshly re-read position; and `DeviceBusy` propagates to the
caller if and only if both the first attempt and the retry are
rejected. -/
theorem stop_busy_retry_once (p1 p2 : ℚ) (b1 b2 : Bool) :
    (asiStop p1 p2 b1 b2 = .error .deviceBusy ↔ b1 = true ∧ b2 = true)
    ∧ asiStop p1 p2 false b2 = .ok [⟨"MOVE", [("X", round3 p1)]⟩]
    ∧ asiStop p1 p2 true false = .ok [⟨"MOVE", [("X", round3 p2)]⟩] := by
  cases b1 <;> cases b2 <;> simp [asiStop, msMove, moveArgs]

/-- C9: blocking `move_to` (the `home` loop is lines-identical) keeps
polling while `moving` reads true and returns as soon as it first reads
false — `n` busy polls then an idle one complete the move after exactly
`n + 1` polls regardless of later readings; a stream that never reads
idle within the bound fails with the move timeout; and the spec's
scenario — a stub reporting busy twice then idle — completes after
exactly 3 status polls. -/
theorem moveTo_blocking_poll_count (lo hi t : ℚ) (n : ℕ) (rest : List String)
    (h : withinRange lo hi t = true) :
    (asiMoveTo lo hi t true false (List.replicate n "B" ++ "N" :: rest)).1 =
      .ok (n + 1)
    ∧ (asiMoveTo lo hi t true false (List.replicate n "B")).1 =
      .error .moveTimeout
    ∧ (asiMoveTo lo hi t true false ["B", "B", "N"]).1 = .ok 3 := by
  have h3 : blockingWait ["B", "B", "N"] = some 3 :=
    blockingWait_busy_then_idle 2 []
  refine ⟨?_, ?_, ?_⟩ <;>
    simp [asiMoveTo, h, msMove, blockingWait_busy_then_idle,
      blockingWait_never_idle, h3]

/-- Witness for `moveTo_blocking_poll_count`: the spec's scenario, limits
[-5 mm, 5 mm], target 2 mm, stub busy twice then idle. -/
theorem moveTo_blocking_poll_count_witness :
    (asiMoveTo (-5) 5 2 true false (List.replicate 2 "B" ++ "N" :: [])).1 =
      .ok (2 + 1)
    ∧ (asiMoveTo (-5) 5 2 true false (List.replicate 2 "B")).1 =
      .error .moveTimeout
    ∧ (asiMoveTo (-5) 5 2 true false ["B", "B", "N"]).1 = .ok 3 :=
  moveTo_blocking_poll_count (-5) 5 2 2 []
    (by simp only [withinRange, decide_eq_true_eq]
        norm_num)

/-- C10: `move_velocity` does not reject a zero velocity: the direction
is -1 for every velocity not strictly positive (zero included) and +1
otherwise, and the issued command is a relative move of 10000000 native
units in that direction. -/
theorem moveVelocity_zero_not_rejected (v : ℚ) :
    asiMoveVelocity true 0 false = .ok ⟨"MOVREL", [("X", -10000000)]⟩
    ∧ (v ≤ 0 → asiMoveVelocity true v false = .ok ⟨"MOVREL", [("X", -10000000)]⟩)
    ∧ (0 < v → asiMoveVelocity true v false = .ok ⟨"MOVREL", [("X", 10000000)]⟩) := by
  have hneg : round3 (-10000000) = -10000000 := by
    norm_num [round3, roundHalfEven]
  have hpos : round3 (10000000) = 10000000 := by
    norm_num [round3, roundHalfEven]
  refine ⟨?_, fun hv => ?_, fun hv => ?_⟩
  · have h0 : ¬((0:ℚ) < 0) := lt_irrefl 0
    simp [asiMoveVelocity, msMove, moveArgs, h0, hneg]
  · have h0 : ¬((0:ℚ) < v) := not_lt.mpr hv
    simp [asiMoveVelocity, msMove, moveArgs, h0, hneg]
  · simp [asiMoveVelocity, msMove, moveArgs, hv, hpos]

/-- Witness for `moveVelocity_zero_not_rejected` at concrete inputs. -/
theorem moveVelocity_zero_not_rejected_witness :
    asiMoveVelocity true (-3) false = .ok ⟨"MOVREL", [("X", -10000000)]⟩
    ∧ asiMoveVelocity true 2 false = .ok ⟨"MOVREL", [("X", 10000000)]⟩ :=
  ⟨(moveVelocity_zero_not_rejected (-3)).2.1 (by norm_num),
   (moveVelocity_zero_not_rejected 2).2.2 (by norm_num)⟩
